import Mathlib

/-
Verification development for the rbac-memory-system repository.

The Python source is shallowly embedded: dictionaries become structures with
optional fields, datetimes are represented by their age in days relative to
the fixed "now" of a call (the only use the embedded code makes of them),
float arithmetic is carried out in ℚ, and the external database is passed in
as explicit lists of records.  SHA-256 content hashing is modelled by the
identity on strings (a collision-free abstraction), and database-generated
ids by a deterministic fresh id.
-/

namespace RbacMemory

/-- models/base_models.py: access_scope_type. -/
inductive AccessScope
  | own
  | project
  | department
  | organization
  | session
deriving DecidableEq, Repr

/-- models/base_models.py: memory_tier_type. -/
inductive MemoryTier
  | short_term
  | mid_term
  | long_term
deriving DecidableEq, Repr

/-- The .value string of a tier (the str-enum payload). -/
def MemoryTier.value : MemoryTier → String
  | .short_term => "short_term"
  | .mid_term => "mid_term"
  | .long_term => "long_term"

/-- The .value string of a scope. -/
def AccessScope.value : AccessScope → String
  | .own => "own"
  | .project => "project"
  | .department => "department"
  | .organization => "organization"
  | .session => "session"

/-- models/base_models.py: UserContext (the fields the embedded code reads).
Identifiers (uuid.UUID in the source) are modelled as Nat. -/
structure UserContext where
  user_id : Nat
  department_id : Option Nat := none
  hierarchy_level : Int := 5
  project_ids : List Nat := []
  session_id : Option Nat := none
deriving DecidableEq, Repr

/-- One entry of the filter dictionary built by
rbac_controller._build_access_filters: key plus value. -/
inductive FilterCond
  | user_id (uid : Nat)
  | project_id__in (pids : List Nat)
  | department_id (did : Option Nat)
deriving DecidableEq, Repr

/-- rbac_controller.RBACController.access_matrix, keyed by hierarchy level
then tier.  The outer Option is "level present in the matrix"; the inner
Option is the entry itself, where none is the explicit no-access marker. -/
def access_matrix (level : Int) (tier : MemoryTier) : Option (Option AccessScope) :=
  if level = 1 then
    some (some AccessScope.organization)
  else if level = 2 then
    some (some AccessScope.department)
  else if level = 3 then
    some (some AccessScope.project)
  else if level = 4 then
    some (match tier with
      | MemoryTier.long_term => some AccessScope.own
      | _ => some AccessScope.project)
  else if level = 5 then
    some (match tier with
      | MemoryTier.short_term => some AccessScope.own
      | _ => none)
  else
    none

/-- rbac_controller.RBACController._build_access_filters.  The source
branches on own / project / department / organization only; any other scope
(in particular session) falls through every branch and the initial empty
dictionary is returned. -/
def build_access_filters (ctx : UserContext) (scope : AccessScope) : List FilterCond :=
  match scope with
  | AccessScope.own => [FilterCond.user_id ctx.user_id]
  | AccessScope.project => [FilterCond.project_id__in ctx.project_ids]
  | AccessScope.department => [FilterCond.department_id ctx.department_id]
  | AccessScope.organization => []
  | AccessScope.session => []

/-- The dictionary returned by check_memory_access. -/
structure AccessDecision where
  granted : Bool
  reason : String
  scope : Option AccessScope := none
  filters : List FilterCond := []
deriving DecidableEq, Repr

/-- rbac_controller.RBACController.check_memory_access.  The action argument
is accepted but unused, as in the source. -/
def check_memory_access (ctx : UserContext) (tier : MemoryTier) (action : String) : AccessDecision :=
  let _ := action
  match access_matrix ctx.hierarchy_level tier with
  | none =>
      { granted := false
        reason := "User level " ++ toString ctx.hierarchy_level ++ " not found in access matrix" }
  | some none =>
      { granted := false
        reason := "No access to " ++ tier.value ++ " for hierarchy level " ++
          toString ctx.hierarchy_level }
  | some (some sc) =>
      { granted := true
        reason := "Access granted with scope: " ++ sc.value
        scope := some sc
        filters := build_access_filters ctx sc }

/-- The matrix entry with both absence cases collapsed, as the authorization
outcome sees it: none means denied (level missing or explicit no-access). -/
def resolved_scope (level : Int) (tier : MemoryTier) : Option AccessScope :=
  Option.join (access_matrix level tier)

/-- Width order on scopes used by the monotonicity claim:
no access below all, then own < project < department < organization.
The session scope never occurs in the policy table (see the theorems on
access_matrix), so its rank is irrelevant; it is placed with own. -/
def scopeRank : Option AccessScope → Nat
  | none => 0
  | some AccessScope.own => 1
  | some AccessScope.session => 1
  | some AccessScope.project => 2
  | some AccessScope.department => 3
  | some AccessScope.organization => 4

/-- Python-style substring test (the in operator on str): startsWith needle l
is true when needle is an initial segment of l. -/
def startsWithChars : List Char → List Char → Bool
  | [], _ => true
  | _ :: _, [] => false
  | a :: as, b :: bs => a = b && startsWithChars as bs

/-- containsSub needle hay scans hay for an occurrence of needle. -/
def containsSub : List Char → List Char → Bool
  | needle, [] => startsWithChars needle []
  | needle, c :: cs => startsWithChars needle (c :: cs) || containsSub needle cs

/-- Python needle in hay on strings. -/
def strContains (hay needle : String) : Bool :=
  containsSub needle.toList hay.toList

/-- Python str.lower() (ASCII inputs), implemented character-wise. -/
def pyToLower (s : String) : String :=
  String.mk (s.toList.map Char.toLower)

/-- Python len() on a string: the number of characters. -/
def pyLen (s : String) : Nat :=
  s.toList.length

/-- Python s[:n] slicing: the first n characters. -/
def pyTake (s : String) (n : Nat) : String :=
  String.mk (s.toList.take n)

/-- Whitespace stripping from the front of a character list. -/
def dropWS (l : List Char) : List Char :=
  l.dropWhile Char.isWhitespace

/-- Python str.strip(): drop leading and trailing whitespace. -/
def pyStrip (s : String) : String :=
  String.mk ((dropWS (dropWS s.toList).reverse).reverse)

/-- Python sep.join(pieces). -/
def pyJoin (sep : String) : List String → String
  | [] => ""
  | [x] => x
  | x :: xs => x ++ sep ++ pyJoin sep xs

/-- Splitting a character list on whitespace runs, dropping empty pieces. -/
def splitWSAux : List Char → List Char → List String
  | [], acc => if acc.isEmpty then [] else [String.mk acc.reverse]
  | c :: cs, acc =>
    if c.isWhitespace then
      if acc.isEmpty then
        splitWSAux cs []
      else
        String.mk acc.reverse :: splitWSAux cs []
    else
      splitWSAux cs (c :: acc)

/-- Python str.split() with no argument: split on whitespace runs, dropping
empty pieces. -/
def pySplit (s : String) : List String :=
  splitWSAux s.toList []

/-- Word count as the source computes it: len(text.split()). -/
def pyWordCount (s : String) : Nat :=
  (pySplit s).length

/-- A Python value as far as the classifier inspects one: a string, a list,
or anything else. -/
inductive PyVal
  | pStr (s : String)
  | pList (n : Nat)
  | pOther
deriving DecidableEq, Repr

/-- The content dictionary given to the classifier: each field is some v
when the corresponding key is present. -/
structure Content where
  memory_tier : Option String := none
  content : Option PyVal := none
  summary_text : Option PyVal := none
  messages : Option PyVal := none
deriving DecidableEq, Repr

/-- content.get('content', content.get('summary_text', content.get('messages', ''))). -/
def contentText (c : Content) : PyVal :=
  c.content.getD (c.summary_text.getD (c.messages.getD (PyVal.pStr "")))

/-- unified_controller: the summary indicator phrases. -/
def summary_indicators : List String :=
  ["summary", "decision", "meeting", "conclusion", "key points"]

/-- unified_controller: the document indicator phrases. -/
def document_indicators : List String :=
  ["policy", "procedure", "documentation", "guide", "manual"]

/-- Case-insensitive test for a summary indicator phrase in the text. -/
def hasSummaryIndicator (s : String) : Bool :=
  summary_indicators.any (fun ind => strContains (pyToLower s) ind)

/-- Case-insensitive test for a document indicator phrase in the text. -/
def hasDocumentIndicator (s : String) : Bool :=
  document_indicators.any (fun ind => strContains (pyToLower s) ind)

/-- unified_controller.UnifiedMemoryController._determine_memory_tier. -/
def determine_memory_tier (c : Content) : String :=
  match c.memory_tier with
  | some t => t
  | none =>
    match contentText c with
    | PyVal.pList _ => "short_term"
    | PyVal.pStr s =>
      if hasSummaryIndicator s then
        "mid_term"
      else if hasDocumentIndicator s then
        "long_term"
      else if pyWordCount s < 50 then
        "short_term"
      else if pyWordCount s < 500 then
        "mid_term"
      else
        "long_term"
    | PyVal.pOther => "short_term"

/-- A normalized search result dictionary as universal_search handles it.
Each Option field is some v when the key is present; created_at carries the
record's age in days relative to the now of the call (the only use the
ranking makes of the timestamp), and none stands for an absent or
unparseable timestamp. -/
structure SearchResult where
  rid : String
  title : String := ""
  content : String := ""
  created_at : Option Int := none
  agent_name : Option String := none
  tags : List String := []
  similarity_score : Option ℚ := none
  word_count : Option Nat := none
  memory_tier : Option String := none
  search_query : Option String := none
  unified_score : Option ℚ := none
deriving DecidableEq, Repr

/-- unified_controller._rank_cross_tier_results, recency part:
max(0, 1 - days_old / 365), with days_old the integer day count of
datetime.now() - created_at. -/
def recency_score (days_old : Int) : ℚ :=
  max 0 (1 - (days_old : ℚ) / 365)

/-- unified_controller._rank_cross_tier_results, tier bonus dictionary with
its defaults: a missing memory_tier key reads as short_term, an unknown
tier falls back to 0.1. -/
def tier_bonus : Option String → ℚ
  | none => 1/10
  | some t =>
    if t = "long_term" then 3/10
    else if t = "mid_term" then 2/10
    else if t = "short_term" then 1/10
    else 1/10

/-- The unified score computed for one result inside
_rank_cross_tier_results. -/
def unified_score_of (r : SearchResult) : ℚ :=
  (match r.similarity_score with
    | some s => s * (4/10)
    | none => 0)
  + (match r.created_at with
    | some d => recency_score d * (3/10)
    | none => 0)
  + tier_bonus r.memory_tier
  + (if r.word_count.getD 0 > 100 then 1/10 else 0)

/-- Stable insertion of one result into a list sorted by descending
unified_score (key x.get('unified_score', 0)): the new element goes after
every earlier element whose score is ≥ its own, exactly the order Python's
stable sorted(..., reverse=True) produces. -/
def insertByScore (r : SearchResult) : List SearchResult → List SearchResult
  | [] => [r]
  | q :: qs =>
    if q.unified_score.getD 0 ≥ r.unified_score.getD 0 then
      q :: insertByScore r qs
    else
      r :: q :: qs

/-- Stable sort by descending unified_score. -/
def sortByScore (l : List SearchResult) : List SearchResult :=
  l.foldl (fun acc r => insertByScore r acc) []

/-- unified_controller._rank_cross_tier_results: annotate every result with
its unified score, then sort by that score, descending. -/
def rank_cross_tier_results (all_results : List SearchResult) : List SearchResult :=
  sortByScore (all_results.map (fun r => { r with unified_score := some (unified_score_of r) }))

/-- One entry of a session's message list: a dict with an optional
content key, or a non-dict entry. -/
inductive MsgEntry
  | mdict (content : Option String)
  | mother
deriving DecidableEq, Repr

/-- A row of rbac_session_memory as retrieve_sessions returns it.  The
messages JSONB field is modelled already parsed; created_at is the row's
age in days relative to the now of the call. -/
structure Session where
  session_id : String
  user_id : Nat
  messages : List MsgEntry
  agent_name : Option String := none
  project_id : Option Nat := none
  department_id : Option Nat := none
  created_at : Int := 0
deriving DecidableEq, Repr

/-- A row of rbac_mid_term_memory as retrieve_summaries returns it. -/
structure Summary where
  summary_id : String
  user_id : Nat
  summary_text : String
  conversation_ids : List String := []
  tags : List String := []
  project_id : Option Nat := none
  department_id : Option Nat := none
  timestamp : Option Int := none
  created_at : Option Int := none
deriving DecidableEq, Repr

/-- unified_controller._search_short_term, given the outcome of the
retrieve_sessions call (an exception there, including an RBAC denial,
is caught by the helper's own try/except and yields the empty list). -/
def search_short_term_helper (sessionsOutcome : Except String (List Session))
    (query : String) (limit : Nat) : List SearchResult :=
  match sessionsOutcome with
  | Except.error _ => []
  | Except.ok sessions =>
    (sessions.filterMap (fun s =>
      let content_text := pyJoin " "
        (s.messages.filterMap (fun m =>
          match m with
          | MsgEntry.mdict (some c) => some c
          | _ => none))
      if strContains (pyToLower content_text) (pyToLower query) then
        some ({ rid := s.session_id
                title := "Session from " ++ toString s.created_at
                content := if pyLen content_text > 200 then
                    pyTake content_text 200 ++ "..."
                  else content_text
                created_at := some s.created_at
                agent_name := some (s.agent_name.getD "Unknown")
                similarity_score := some (7/10) } : SearchResult)
      else none)).take limit

/-- Order-preserving deduplication by summary_id, first occurrence kept. -/
def dedupBySummaryId : List String → List Summary → List Summary
  | _, [] => []
  | seen, s :: rest =>
    if seen.contains s.summary_id then
      dedupBySummaryId seen rest
    else
      s :: dedupBySummaryId (s.summary_id :: seen) rest

/-- unified_controller._search_mid_term, given the outcomes of the two
mid-term store calls (content search, and tag search used only for
single-word queries).  Any exception yields the empty list. -/
def search_mid_term_helper (contentOutcome tagOutcome : Except String (List Summary))
    (query : String) (limit : Nat) : List SearchResult :=
  match contentOutcome with
  | Except.error _ => []
  | Except.ok content_results =>
    match (if (pySplit query).length = 1 then tagOutcome else Except.ok []) with
    | Except.error _ => []
    | Except.ok tag_results =>
      ((dedupBySummaryId [] (content_results ++ tag_results)).map (fun s =>
        ({ rid := s.summary_id,
           title := "Summary: " ++ pyTake s.summary_text 50 ++ "...",
           content := s.summary_text,
           tags := s.tags,
           created_at := (match s.timestamp with
             | some t => some t
             | none => s.created_at),
           similarity_score := some (8/10) } : SearchResult))).take limit

/-- The dictionary universal_search returns (the execution_time wall-clock
string is omitted; result_breakdown is flattened into three counts). -/
structure SearchResponse where
  query : String
  total_results : Nat
  results : List SearchResult
  tiers_searched : List String
  search_errors : List String
  breakdown_short : Nat
  breakdown_mid : Nat
  breakdown_long : Nat
deriving DecidableEq, Repr

/-- unified_controller.universal_search, parameterized by the outcomes of
the three tier-store calls.  The short and mid helpers swallow their own
failures; only the long-term semantic_search call can raise into the
per-tier gathering loop, where the exception text is recorded. -/
def universal_search (query : String) (limit : Nat)
    (shortOutcome : Except String (List Session))
    (midContentOutcome midTagOutcome : Except String (List Summary))
    (longOutcome : Except String (List SearchResult)) : SearchResponse :=
  let stm := search_short_term_helper shortOutcome query (limit / 3)
  let mtm := search_mid_term_helper midContentOutcome midTagOutcome query (limit / 3)
  let tag := fun (tier : String) (rs : List SearchResult) =>
    rs.map (fun r => { r with memory_tier := some tier, search_query := some query })
  let shortTagged := tag "short_term" stm
  let midTagged := tag "mid_term" mtm
  let longPart : List SearchResult × List String :=
    match longOutcome with
    | Except.ok rs => (tag "long_term" rs, [])
    | Except.error e => ([], ["long_term: " ++ e])
  let all_results := shortTagged ++ midTagged ++ longPart.1
  let final := (rank_cross_tier_results all_results).take limit
  { query := query
    total_results := final.length
    results := final
    tiers_searched := ["short_term", "mid_term", "long_term"]
    search_errors := longPart.2
    breakdown_short := (final.filter (fun r => r.memory_tier = some "short_term")).length
    breakdown_mid := (final.filter (fun r => r.memory_tier = some "mid_term")).length
    breakdown_long := (final.filter (fun r => r.memory_tier = some "long_term")).length }

/-- An HTTPException: status code and detail string. -/
structure HErr where
  status : Nat
  detail : String
deriving DecidableEq, Repr

/-- A database access performed by a store call (one per executed query on
a tier's table). -/
inductive StoreOp
  | read_short
  | read_mid
  | read_long
  | write_short
  | write_mid
  | write_long
deriving DecidableEq, Repr

/-- SQL semantics of one RBAC filter fragment against a row's owner,
project and department columns (comparisons with NULL are false). -/
def filterAllows (f : FilterCond) (uid : Nat) (pid did : Option Nat) : Bool :=
  match f with
  | FilterCond.user_id u => uid = u
  | FilterCond.project_id__in ps =>
    match pid with
    | some p => ps.contains p
    | none => false
  | FilterCond.department_id d =>
    match d, did with
    | some dv, some rv => dv = rv
    | _, _ => false

/-- Conjunction of RBAC filter fragments, as the assembled WHERE clause. -/
def rowVisible (fs : List FilterCond) (uid : Nat) (pid did : Option Nat) : Bool :=
  fs.all (fun f => filterAllows f uid pid did)

/-- short_term_controller.retrieve_sessions over an explicit table (rows
ordered newest first), returning the outcome and the store accesses made:
an RBAC denial raises 403 before the store is contacted. -/
def retrieve_sessions (ctx : UserContext) (db : List Session) (limit : Nat) :
    Except HErr (List Session) × List StoreOp :=
  let ar := check_memory_access ctx MemoryTier.short_term "read"
  if ar.granted then
    (Except.ok ((db.filter (fun s =>
        rowVisible ar.filters s.user_id s.project_id s.department_id)).take limit),
      [StoreOp.read_short])
  else
    (Except.error { status := 403, detail := ar.reason }, [])

/-- mid_term_controller.retrieve_summaries with no user filters (the only
form the migration path uses), over an explicit table. -/
def retrieve_summaries (ctx : UserContext) (db : List Summary) (limit : Nat) :
    Except HErr (List Summary) × List StoreOp :=
  let ar := check_memory_access ctx MemoryTier.mid_term "read"
  if ar.granted then
    (Except.ok ((db.filter (fun s =>
        rowVisible ar.filters s.user_id s.project_id s.department_id)).take limit),
      [StoreOp.read_mid])
  else
    (Except.error { status := 403, detail := ar.reason }, [])

/-- The content dictionary handed to store_summary / store_document,
with the keys those two consumers and the migration engine use.  The
nested entities / metadata dictionaries are flattened into their source
marker and original_tags payload. -/
structure DocData where
  content : Option String := none
  title : Option String := none
  summary_text : Option String := none
  conversation_ids : List String := []
  tags : List String := []
  memory_type : Option String := none
  source : Option String := none
  original_tags : Option (List String) := none
deriving DecidableEq, Repr

/-- The success dictionary a store call returns (memory_id for documents,
summary_id for summaries). -/
structure StoreRes where
  memory_id : Option String := none
  summary_id : Option String := none
  status : String
  message : String := ""
  keywords : List String := []
  word_count : Nat := 0
deriving DecidableEq, Repr

/-- mid_term_controller.store_summary: RBAC write check, then text
validation, then the insert.  The database-generated summary_id is
modelled by a fixed fresh id. -/
def store_summary (ctx : UserContext) (d : DocData) :
    Except HErr StoreRes × List StoreOp :=
  let ar := check_memory_access ctx MemoryTier.mid_term "write"
  if ¬ ar.granted then
    (Except.error { status := 403, detail := ar.reason }, [])
  else if d.summary_text.getD "" = "" then
    (Except.error { status := 400, detail := "No summary text provided" }, [])
  else
    (Except.ok { summary_id := some "new_summary"
                 status := "success"
                 message := "Summary stored successfully" }, [StoreOp.write_mid])

/-- A row of rbac_long_term_memory (the columns the embedded code reads). -/
structure LongDoc where
  memory_id : String
  title : String := ""
  content : String := ""
  content_hash : String
  memory_type : String := "document"
  project_id : Option Nat := none
  department_id : Option Nat := none
  created_by : Nat := 0
  keywords : List String := []
  word_count : Nat := 0
  version : Nat := 1
  is_archived : Bool := false
  created_at : Int := 0
deriving DecidableEq, Repr

/-- long_term_controller._generate_content_hash: SHA-256 modelled as the
identity on strings (a collision-free abstraction). -/
def generate_content_hash (content : String) : String :=
  content

/-- Word characters of the regex word-boundary semantics. -/
def isWordChar (c : Char) : Bool :=
  c.isAlpha || c.isDigit || c = '_'

/-- Maximal word-character runs of a character list. -/
def wordRuns : List Char → List Char → List (List Char)
  | [], acc => if acc.isEmpty then [] else [acc.reverse]
  | c :: cs, acc =>
    if isWordChar c then
      wordRuns cs (c :: acc)
    else if acc.isEmpty then
      wordRuns cs []
    else
      acc.reverse :: wordRuns cs []

/-- long_term_controller: the stop-word set of _extract_keywords. -/
def stop_words : List String :=
  ["the", "a", "an", "and", "or", "but", "in", "on", "at", "to", "for",
   "of", "with", "by", "is", "are", "was", "were", "be", "been", "being",
   "have", "has", "had", "do", "does", "did", "will", "would", "could",
   "should", "may", "might", "can", "this", "that", "these", "those"]

/-- Insertion-ordered frequency counting (a Python dict of counts). -/
def countWord : List (String × Nat) → String → List (String × Nat)
  | [], w => [(w, 1)]
  | (x, n) :: rest, w =>
    if x = w then (x, n + 1) :: rest else (x, n) :: countWord rest w

/-- Stable insertion into a list sorted by descending count. -/
def insertFreqDesc (p : String × Nat) : List (String × Nat) → List (String × Nat)
  | [] => [p]
  | q :: qs => if q.2 ≥ p.2 then q :: insertFreqDesc p qs else p :: q :: qs

/-- long_term_controller._extract_keywords: the regex findall of
maximal alphabetic words of length at least 3 on the lowercased content
(word-boundary semantics: a run adjacent to a digit or underscore does
not match), stop-word filtering, frequency counting, then a stable sort
by descending frequency truncated to max_keywords. -/
def extract_keywords (content : String) (max_keywords : Nat := 10) : List String :=
  let words := (wordRuns (pyToLower content).toList []).filterMap (fun run =>
    if run.length ≥ 3 && run.all Char.isAlpha then some (String.mk run) else none)
  let filtered := words.filter (fun w => ¬ stop_words.contains w)
  let freq := filtered.foldl countWord []
  let sortedFreq := freq.foldl (fun acc p => insertFreqDesc p acc) []
  (sortedFreq.take max_keywords).map (fun p => p.1)

/-- Outcome of a store_document call: the returned value, the store
accesses made, and the table afterwards. -/
structure DocStoreOutcome where
  result : Except HErr StoreRes
  ops : List StoreOp
  table : List LongDoc
deriving Repr

/-- long_term_controller.store_document: RBAC write check, content
validation, hash-based duplicate lookup (a plain SELECT on content_hash
with no archived or visibility condition), then the insert.  The
placeholder embedding is external and not modelled; the generated
memory_id is modelled by a deterministic fresh id. -/
def store_document (ctx : UserContext) (d : DocData) (table : List LongDoc) :
    DocStoreOutcome :=
  let ar := check_memory_access ctx MemoryTier.long_term "write"
  if ¬ ar.granted then
    { result := Except.error { status := 403, detail := ar.reason }, ops := [], table := table }
  else
    let content := pyStrip (d.content.getD "")
    if content = "" then
      { result := Except.error { status := 400, detail := "Document content is required" },
        ops := [], table := table }
    else if pyLen content < 10 then
      { result := Except.error
          { status := 400, detail := "Document content too short (minimum 10 characters)" },
        ops := [], table := table }
    else
      let content_hash := generate_content_hash content
      match table.find? (fun doc => doc.content_hash = content_hash) with
      | some existing =>
        { result := Except.ok
            { memory_id := some existing.memory_id
              status := "duplicate"
              message := "Document with identical content already exists" }
          ops := [StoreOp.read_long]
          table := table }
      | none =>
        let title := d.title.getD
          (if pyLen content > 100 then pyTake content 100 ++ "..." else content)
        let keywords := extract_keywords content 10
        let word_count := pyWordCount content
        let memory_id := "doc-" ++ toString table.length
        let newDoc : LongDoc :=
          { memory_id := memory_id, title := title, content := content,
            content_hash := content_hash, memory_type := d.memory_type.getD "document",
            project_id := ctx.project_ids.head?, department_id := ctx.department_id,
            created_by := ctx.user_id, keywords := keywords, word_count := word_count,
            version := 1, is_archived := false }
        { result := Except.ok
            { memory_id := some memory_id
              status := "success"
              message := "Document stored successfully"
              keywords := keywords
              word_count := word_count }
          ops := [StoreOp.read_long, StoreOp.write_long]
          table := table ++ [newDoc] }

/-- The migration result dictionary.  The random migration_id (uuid4 in
the source) is modelled by a fixed placeholder. -/
structure MigResult where
  migration_id : String := "migration"
  source_tier : String
  target_tier : String
  source_id : String
  target_id : Option String
  status : String
  message : String
deriving DecidableEq, Repr

/-- The database state migrate_memory operates over. -/
structure MigDb where
  sessions : List Session := []
  summaries : List Summary := []
  longdocs : List LongDoc := []
deriving Repr

/-- Target-tier dispatch of unified_controller.migrate_memory: store the
transformed content in the target tier, or reject an unknown target. -/
def migrate_store_target (ctx : UserContext) (db : MigDb) (migrated : DocData)
    (source_tier target_tier memory_id : String) (ops : List StoreOp) :
    Except HErr MigResult × List StoreOp :=
  let finish := fun (res : StoreRes) (ops2 : List StoreOp) =>
    (Except.ok ({ source_tier := source_tier
                  target_tier := target_tier
                  source_id := memory_id
                  target_id := (match res.memory_id with
                    | some i => some i
                    | none => res.summary_id)
                  status := "success"
                  message := "Successfully migrated from " ++ source_tier ++
                    " to " ++ target_tier } : MigResult), ops ++ ops2)
  if target_tier = "mid_term" then
    match store_summary ctx migrated with
    | (Except.error e, ops2) => (Except.error e, ops ++ ops2)
    | (Except.ok res, ops2) => finish res ops2
  else if target_tier = "long_term" then
    let out := store_document ctx migrated db.longdocs
    match out.result with
    | Except.error e => (Except.error e, ops ++ out.ops)
    | Except.ok res => finish res out.ops
  else
    (Except.error { status := 400, detail := "Invalid target tier" }, ops)

/-- unified_controller.migrate_memory: retrieve and transform the source
record, then store it in the target tier.  Alongside the outcome, the
list of store accesses actually performed is returned. -/
def migrate_memory (ctx : UserContext) (db : MigDb)
    (source_tier target_tier memory_id : String) :
    Except HErr MigResult × List StoreOp :=
  if source_tier = "short_term" then
    match retrieve_sessions ctx db.sessions 1000 with
    | (Except.error e, ops1) => (Except.error e, ops1)
    | (Except.ok sessions, ops1) =>
      match sessions.find? (fun s => s.session_id = memory_id) with
      | none => (Except.error { status := 404, detail := "Source memory not found" }, ops1)
      | some source_item =>
        let content_text := pyJoin " " (source_item.messages.filterMap (fun m =>
          match m with
          | MsgEntry.mdict c => some (c.getD "")
          | MsgEntry.mother => none))
        let migrated : DocData :=
          { summary_text := some ("Session summary: " ++ pyTake content_text 500 ++ "...")
            conversation_ids := [memory_id]
            tags := ["migrated", "session"]
            source := some "short_term_migration" }
        migrate_store_target ctx db migrated source_tier target_tier memory_id ops1
  else if source_tier = "mid_term" then
    match retrieve_summaries ctx db.summaries 1000 with
    | (Except.error e, ops1) => (Except.error e, ops1)
    | (Except.ok summaries, ops1) =>
      match summaries.find? (fun s => s.summary_id = memory_id) with
      | none => (Except.error { status := 404, detail := "Source memory not found" }, ops1)
      | some source_item =>
        let migrated : DocData :=
          { title := some ("Summary Document: " ++ pyTake source_item.summary_text 50 ++ "...")
            content := some source_item.summary_text
            memory_type := some "migrated_summary"
            original_tags := some source_item.tags
            source := some "mid_term_migration" }
        migrate_store_target ctx db migrated source_tier target_tier memory_id ops1
  else
    (Except.error { status := 400, detail := "Migration from long-term not supported" }, [])

/-- The recent-activity dictionary of _get_recent_activity. -/
structure RecentActivity where
  short_term : Nat
  mid_term : Nat
  long_term : Nat
  most_active_tier : String
deriving DecidableEq, Repr

/-- Python max(list, key=...): keep the first element, replacing it only
when a later element's key is strictly greater — on ties the earlier
element of the list wins. -/
def pyMaxBySnd (first : String × Nat) (rest : List (String × Nat)) : String × Nat :=
  rest.foldl (fun acc p => if p.2 > acc.2 then p else acc) first

/-- mid_term_controller.retrieve_summaries with the date_from user filter
set to now minus window days (the SQL condition timestamp >= date_from).
Timestamps are ages in days, so a row passes when its timestamp age is at
most window; a NULL timestamp never satisfies the comparison. -/
def retrieve_summaries_window (ctx : UserContext) (db : List Summary)
    (window : Int) (limit : Nat) : Except HErr (List Summary) × List StoreOp :=
  let ar := check_memory_access ctx MemoryTier.mid_term "read"
  if ar.granted then
    (Except.ok ((db.filter (fun s =>
        rowVisible ar.filters s.user_id s.project_id s.department_id &&
        (match s.timestamp with
          | some t => decide (t ≤ window)
          | none => false))).take limit),
      [StoreOp.read_mid])
  else
    (Except.error { status := 403, detail := ar.reason }, [])

/-- long_term_controller.retrieve_documents with the date_from user filter
set to now minus window days (created_at >= date_from) and the fixed
is_archived = FALSE condition; the RBAC owner filter matches created_by. -/
def retrieve_documents_window (ctx : UserContext) (db : List LongDoc)
    (window : Int) (limit : Nat) : Except HErr (List LongDoc) × List StoreOp :=
  let ar := check_memory_access ctx MemoryTier.long_term "read"
  if ar.granted then
    (Except.ok ((db.filter (fun doc =>
        rowVisible ar.filters doc.created_by doc.project_id doc.department_id &&
        decide (doc.created_at ≤ window) && !doc.is_archived)).take limit),
      [StoreOp.read_long])
  else
    (Except.error { status := 403, detail := ar.reason }, [])

/-- unified_controller._get_recent_activity over the three store tables.
The short_term call is retrieve_sessions with limit 100 and NO date
filter, so it counts every session visible to the principal; the mid_term
and long_term calls pass date_from = now - 7 days and count only rows in
the trailing window.  The most active tier is the Python max over the
(tier, count) pairs in list order short_term, mid_term, long_term.  An
exception from any retrieval is caught and the error dictionary returned,
modelled by the exception's detail string. -/
def get_recent_activity (ctx : UserContext) (sessionsDb : List Session)
    (summariesDb : List Summary) (docsDb : List LongDoc) :
    Except String RecentActivity :=
  match retrieve_sessions ctx sessionsDb 100 with
  | (Except.error e, _) => Except.error e.detail
  | (Except.ok recent_short, _) =>
    match retrieve_summaries_window ctx summariesDb 7 100 with
    | (Except.error e, _) => Except.error e.detail
    | (Except.ok recent_mid, _) =>
      match retrieve_documents_window ctx docsDb 7 100 with
      | (Except.error e, _) => Except.error e.detail
      | (Except.ok recent_long, _) =>
        Except.ok
          { short_term := recent_short.length
            mid_term := recent_mid.length
            long_term := recent_long.length
            most_active_tier := (pyMaxBySnd ("short_term", recent_short.length)
              [("mid_term", recent_mid.length), ("long_term", recent_long.length)]).1 }

/-- The most-active-tier rule as the specification words it: the argmax of
the per-tier counts, ties broken by the priority order long_term over
mid_term over short_term.  Stated from the spec for comparison with
get_recent_activity. -/
def most_active_tier_spec (ns nm nl : Nat) : String :=
  if nl ≥ nm ∧ nl ≥ ns then "long_term"
  else if nm ≥ ns then "mid_term"
  else "short_term"

/-- A level-3 principal on project 7, used by the migration claims. -/
def mig_ctx : UserContext :=
  { user_id := 1, hierarchy_level := 3, project_ids := [7] }

/-- A visible short_term session with one message. -/
def mig_session : Session :=
  { session_id := "sess1", user_id := 1, project_id := some 7,
    messages := [MsgEntry.mdict (some "hello world from the standup")] }

/-- A visible mid_term summary. -/
def mig_summary : Summary :=
  { summary_id := "s1", user_id := 1, summary_text := "quarterly planning decisions",
    project_id := some 7 }

/-- A mid_term summary returned by a universal-search store call. -/
def usearch_summary : Summary :=
  { summary_id := "m1", user_id := 1, summary_text := "notes about the q launch" }

/-- The search result universal_search produces from usearch_summary,
before score annotation. -/
def usearch_base : SearchResult :=
  { rid := "m1"
    title := "Summary: " ++ pyTake "notes about the q launch" 50 ++ "..."
    content := "notes about the q launch"
    similarity_score := some (8/10)
    memory_tier := some "mid_term"
    search_query := some "q" }

/-- The same result after universal_search's score annotation. -/
def usearch_result : SearchResult :=
  { usearch_base with unified_score := some (unified_score_of usearch_base) }

/-- A level-1 principal (organization scope on every tier), used by the
recent-activity claims. -/
def ra_ctx : UserContext :=
  { user_id := 2, hierarchy_level := 1 }

/-- A session 100 days old — far outside the 7-day window. -/
def ra_stale_session : Session :=
  { session_id := "old-sess", user_id := 2, messages := [], created_at := 100 }

/-- A summary from yesterday — inside the 7-day window. -/
def ra_fresh_summary : Summary :=
  { summary_id := "fresh-sum", user_id := 2, summary_text := "t", timestamp := some 1 }

/-
Theorems for the claims.
-/

/-- C1: for every principal at hierarchy level 5 with no project
memberships, authorization for long_term read is denied; for every
principal at level 1, long_term read is granted with organization scope
and an empty filter set. -/
theorem c1_authorize_levels :
    (∀ ctx : UserContext, ctx.hierarchy_level = 5 → ctx.project_ids = [] →
      (check_memory_access ctx MemoryTier.long_term "read").granted = false) ∧
    (∀ ctx : UserContext, ctx.hierarchy_level = 1 →
      (check_memory_access ctx MemoryTier.long_term "read").granted = true ∧
      (check_memory_access ctx MemoryTier.long_term "read").scope =
        some AccessScope.organization ∧
      (check_memory_access ctx MemoryTier.long_term "read").filters = []) := by
  constructor
  · intro ctx h5 _hp
    simp [check_memory_access, access_matrix, h5]
  · intro ctx h1
    simp [check_memory_access, access_matrix, h1, build_access_filters]

/-- Witness for C1 at a level-5 intern with no projects and a level-1
principal. -/
theorem c1_authorize_levels_witness :
    (check_memory_access { user_id := 55, hierarchy_level := 5 }
      MemoryTier.long_term "read").granted = false ∧
    (check_memory_access { user_id := 11, hierarchy_level := 1 }
      MemoryTier.long_term "read").granted = true :=
  ⟨c1_authorize_levels.1 { user_id := 55, hierarchy_level := 5 } rfl rfl,
   (c1_authorize_levels.2 { user_id := 11, hierarchy_level := 1 } rfl).1⟩

/-- C2: over the policy table's hierarchy levels 1..5, the resolved scope
is monotone: a strictly lower (more senior) level never gets a narrower
scope than a higher level for the same tier, in the width order
no access < own < project < department < organization. -/
theorem c2_scope_monotone (l1 l2 : Int) (h11 : 1 ≤ l1) (h15 : l1 ≤ 5)
    (h21 : 1 ≤ l2) (h25 : l2 ≤ 5) (hlt : l1 < l2) (tier : MemoryTier) :
    scopeRank (resolved_scope l2 tier) ≤ scopeRank (resolved_scope l1 tier) := by
  interval_cases l1 <;> interval_cases l2 <;> first
    | omega
    | (cases tier <;> decide)

/-- Witness for C2 at levels 1 and 5 on the long_term tier. -/
theorem c2_scope_monotone_witness :
    (1 : Int) < 5 ∧
    scopeRank (resolved_scope 5 MemoryTier.long_term) ≤
      scopeRank (resolved_scope 1 MemoryTier.long_term) :=
  ⟨by decide,
   c2_scope_monotone 1 5 (by decide) (by decide) (by decide) (by decide) (by decide)
     MemoryTier.long_term⟩

/-- C6 counterexample: a record 365 days in the future has
recency_factor 2, not 1 — the source formula has no upper clamp. -/
theorem c6_recency_counterexample :
    recency_score (-365) = 2 ∧ ¬ recency_score (-365) ≤ 1 := by
  constructor
  · norm_num [recency_score]
  · norm_num [recency_score]

/-- C6 amended: recency_factor is max(0, 1 − age/365); it is never
negative, a record 365 or more days old scores 0, and a record with a
future timestamp (negative age) scores strictly more than 1 (the formula
clamps below at 0 but not above at 1). -/
theorem c6_recency_properties (d : Int) :
    recency_score d = max 0 (1 - (d : ℚ) / 365) ∧
    0 ≤ recency_score d ∧
    (365 ≤ d → recency_score d = 0) ∧
    (d < 0 → 1 < recency_score d) := by
  refine ⟨rfl, le_max_left _ _, ?_, ?_⟩
  · intro h
    have hd : (365 : ℚ) ≤ (d : ℚ) := by exact_mod_cast h
    have h1 : (1 : ℚ) ≤ (d : ℚ) / 365 := by
      rw [le_div_iff₀ (by norm_num : (0:ℚ) < 365)]
      linarith
    have h2 : 1 - (d : ℚ) / 365 ≤ 0 := by linarith
    simpa [recency_score] using max_eq_left h2
  · intro h
    have hd : (d : ℚ) < 0 := by exact_mod_cast h
    have h1 : (d : ℚ) / 365 < 0 := div_neg_of_neg_of_pos hd (by norm_num)
    have h2 : (1 : ℚ) < 1 - (d : ℚ) / 365 := by linarith
    exact lt_max_of_lt_right h2

/-- Witness for C6 amended at boundary ages 365 and -1. -/
theorem c6_recency_properties_witness :
    ((365 : Int) ≤ 365 ∧ recency_score 365 = 0) ∧
    ((-1 : Int) < 0 ∧ 1 < recency_score (-1)) :=
  ⟨⟨by decide, (c6_recency_properties 365).2.2.1 (by decide)⟩,
   ⟨by decide, (c6_recency_properties (-1)).2.2.2 (by decide)⟩⟩

/-- C7: the classifier applies its rules in order with first match
winning — explicit tier hint; then message-list body to short_term; then
summary indicator (case-insensitive) to mid_term; then document indicator
to long_term; then word count below 50 to short_term, below 500 to
mid_term, otherwise long_term; non-text non-list input and the empty
text default to short_term.  Determinism, purity and totality hold by
construction, determine_memory_tier being a total function. -/
theorem c7_classifier_rules :
    (∀ (c : Content) (t : String), c.memory_tier = some t →
      determine_memory_tier c = t) ∧
    (∀ (c : Content) (n : Nat), c.memory_tier = none →
      contentText c = PyVal.pList n → determine_memory_tier c = "short_term") ∧
    (∀ (c : Content) (s : String), c.memory_tier = none → contentText c = PyVal.pStr s →
      hasSummaryIndicator s = true → determine_memory_tier c = "mid_term") ∧
    (∀ (c : Content) (s : String), c.memory_tier = none → contentText c = PyVal.pStr s →
      hasSummaryIndicator s = false → hasDocumentIndicator s = true →
      determine_memory_tier c = "long_term") ∧
    (∀ (c : Content) (s : String), c.memory_tier = none → contentText c = PyVal.pStr s →
      hasSummaryIndicator s = false → hasDocumentIndicator s = false →
      pyWordCount s < 50 → determine_memory_tier c = "short_term") ∧
    (∀ (c : Content) (s : String), c.memory_tier = none → contentText c = PyVal.pStr s →
      hasSummaryIndicator s = false → hasDocumentIndicator s = false →
      50 ≤ pyWordCount s → pyWordCount s < 500 → determine_memory_tier c = "mid_term") ∧
    (∀ (c : Content) (s : String), c.memory_tier = none → contentText c = PyVal.pStr s →
      hasSummaryIndicator s = false → hasDocumentIndicator s = false →
      500 ≤ pyWordCount s → determine_memory_tier c = "long_term") ∧
    (∀ c : Content, c.memory_tier = none → contentText c = PyVal.pOther →
      determine_memory_tier c = "short_term") ∧
    (∀ c : Content, c.memory_tier = none → contentText c = PyVal.pStr "" →
      determine_memory_tier c = "short_term") := by
  refine ⟨?_, ?_, ?_, ?_, ?_, ?_, ?_, ?_, ?_⟩
  · intro c t hmt
    simp [determine_memory_tier, hmt]
  · intro c n hmt hct
    simp [determine_memory_tier, hmt, hct]
  · intro c s hmt hct hsum
    simp [determine_memory_tier, hmt, hct, hsum]
  · intro c s hmt hct hsum hdoc
    simp [determine_memory_tier, hmt, hct, hsum, hdoc]
  · intro c s hmt hct hsum hdoc hwc
    simp [determine_memory_tier, hmt, hct, hsum, hdoc, hwc]
  · intro c s hmt hct hsum hdoc hwc1 hwc2
    simp [determine_memory_tier, hmt, hct, hsum, hdoc, hwc2, Nat.not_lt.mpr hwc1]
  · intro c s hmt hct hsum hdoc hwc
    have h1 : ¬ pyWordCount s < 50 := by omega
    have h2 : ¬ pyWordCount s < 500 := by omega
    simp [determine_memory_tier, hmt, hct, hsum, hdoc, h1, h2]
  · intro c hmt hct
    simp [determine_memory_tier, hmt, hct]
  · intro c hmt hct
    simp [determine_memory_tier, hmt, hct]
    decide

/-- Witness for C7 on the spec's scenario inputs: a messages-array body,
a policy-document text, and a short keyword-free note. -/
theorem c7_classifier_rules_witness :
    determine_memory_tier { messages := some (PyVal.pList 3) } = "short_term" ∧
    determine_memory_tier
      { content := some (PyVal.pStr "This policy document outlines rules") } = "long_term" ∧
    determine_memory_tier
      { content := some (PyVal.pStr "a plain thirty word note") } = "short_term" :=
  ⟨c7_classifier_rules.2.1 { messages := some (PyVal.pList 3) } 3 rfl rfl,
   c7_classifier_rules.2.2.2.1
     { content := some (PyVal.pStr "This policy document outlines rules") }
     "This policy document outlines rules" rfl rfl (by decide) (by decide),
   c7_classifier_rules.2.2.2.2.1
     { content := some (PyVal.pStr "a plain thirty word note") }
     "a plain thirty word note" rfl rfl (by decide) (by decide) (by decide)⟩

/-- C8 counterexample: for a principal carrying a session id, the filter
builder has no session branch and returns the empty, unrestricted filter
set — not an owner or session filter. -/
theorem c8_session_counterexample :
    build_access_filters
      { user_id := 42, hierarchy_level := 5, session_id := some 7 }
      AccessScope.session = [] :=
  rfl

/-- C8 amended: the filter builder returns the empty (unrestricted) filter
set for scope session for every principal; the policy table never resolves
any (level, tier) pair to the session scope, so authorization never
produces that scope. -/
theorem c8_session_filters :
    (∀ ctx : UserContext, build_access_filters ctx AccessScope.session = []) ∧
    (∀ (level : Int) (tier : MemoryTier),
      resolved_scope level tier ∈
        [(none : Option AccessScope), some AccessScope.own, some AccessScope.project,
         some AccessScope.department, some AccessScope.organization]) := by
  constructor
  · intro ctx
    rfl
  · intro level tier
    unfold resolved_scope access_matrix
    split_ifs <;> cases tier <;> simp

/-- C9 counterexample: a session 100 days old — far outside the trailing
7-day window — is still counted toward short_term, because the short_term
query carries no date filter, and the resulting 1-1 tie with the mid tier
is then resolved to short_term; the claim's windowed counts would be
(0, 1, 0) and its long > mid > short tie-break would name mid_term. -/
theorem c9_most_active_counterexample :
    get_recent_activity ra_ctx [ra_stale_session] [ra_fresh_summary] [] =
      Except.ok { short_term := 1, mid_term := 1, long_term := 0,
                  most_active_tier := "short_term" } ∧
    ¬ (100 : Int) ≤ 7 ∧
    most_active_tier_spec 0 1 0 = "mid_term" ∧
    ("short_term" : String) ≠ "mid_term" :=
  ⟨rfl, by decide, rfl, by decide⟩

/-- C9 amended: the reported counts are not uniformly windowed — the
mid_term and long_term counts cover the visible rows of the trailing
7-day window, but the short_term count is every session visible to the
principal, with no date condition (each query capped at 100 rows) — and
most_active_tier is the first maximal count in the list order short_term,
mid_term, long_term, so ties are broken by the priority short_term >
mid_term > long_term, the reverse of the claimed order: long_term wins
only when strictly largest, mid_term only when strictly larger than
short_term. -/
theorem c9_most_active_first_max (ctx : UserContext) (sessionsDb : List Session)
    (summariesDb : List Summary) (docsDb : List LongDoc) (ra : RecentActivity)
    (h : get_recent_activity ctx sessionsDb summariesDb docsDb = Except.ok ra) :
    (ra.short_term = ((sessionsDb.filter (fun s =>
        rowVisible (check_memory_access ctx MemoryTier.short_term "read").filters
          s.user_id s.project_id s.department_id)).take 100).length ∧
     ra.mid_term = ((summariesDb.filter (fun s =>
        rowVisible (check_memory_access ctx MemoryTier.mid_term "read").filters
          s.user_id s.project_id s.department_id &&
        (match s.timestamp with
          | some t => decide (t ≤ 7)
          | none => false))).take 100).length ∧
     ra.long_term = ((docsDb.filter (fun doc =>
        rowVisible (check_memory_access ctx MemoryTier.long_term "read").filters
          doc.created_by doc.project_id doc.department_id &&
        decide (doc.created_at ≤ 7) && !doc.is_archived)).take 100).length) ∧
    ra.most_active_tier =
      (if ra.long_term > ra.short_term ∧ ra.long_term > ra.mid_term then "long_term"
       else if ra.mid_term > ra.short_term then "mid_term"
       else "short_term") := by
  have key : ∀ ns nm nl : Nat,
      (pyMaxBySnd ("short_term", ns) [("mid_term", nm), ("long_term", nl)]).1 =
        (if nl > ns ∧ nl > nm then "long_term"
         else if nm > ns then "mid_term"
         else "short_term") := by
    intro ns nm nl
    simp only [pyMaxBySnd, List.foldl]
    by_cases h1 : nm > ns
    · by_cases h2 : nl > nm
      · have h3 : nl > ns ∧ nl > nm := ⟨by omega, h2⟩
        simp [h1, h2, h3]
      · have h3 : ¬ (nl > ns ∧ nl > nm) := by omega
        simp [h1, h2, h3]
    · by_cases h2 : nl > ns
      · have h3 : nl > ns ∧ nl > nm := ⟨h2, by omega⟩
        simp [h1, h2, h3]
      · have h3 : ¬ (nl > ns ∧ nl > nm) := by omega
        simp [h1, h2, h3]
  unfold get_recent_activity retrieve_sessions retrieve_summaries_window
    retrieve_documents_window at h
  by_cases h1 : (check_memory_access ctx MemoryTier.short_term "read").granted
  · simp only [h1, if_true] at h
    by_cases h2 : (check_memory_access ctx MemoryTier.mid_term "read").granted
    · simp only [h2, if_true] at h
      by_cases h3 : (check_memory_access ctx MemoryTier.long_term "read").granted
      · simp only [h3, if_true, Except.ok.injEq] at h
        subst h
        refine ⟨⟨rfl, rfl, rfl⟩, ?_⟩
        exact key _ _ _
      · simp [h3] at h
    · simp [h2] at h
  · simp [h1] at h

/-- Witness for C9 amended: a principal with one stale session and empty
mid and long tables. -/
theorem c9_most_active_first_max_witness :
    get_recent_activity ra_ctx [ra_stale_session] [] [] =
      Except.ok { short_term := 1, mid_term := 0, long_term := 0,
                  most_active_tier := "short_term" } ∧
    ({ short_term := 1, mid_term := 0, long_term := 0,
       most_active_tier := "short_term" } : RecentActivity).most_active_tier =
      (if (0 : Nat) > 1 ∧ (0 : Nat) > 0 then "long_term"
       else if (0 : Nat) > 1 then "mid_term"
       else "short_term") :=
  ⟨rfl,
   (c9_most_active_first_max ra_ctx [ra_stale_session] [] []
     { short_term := 1, mid_term := 0, long_term := 0,
       most_active_tier := "short_term" } rfl).2⟩

/-- C4 (code bug): migrating a short_term record to long_term never
produces a document — the transform emits a summary_text-keyed dictionary,
store_document reads only the content key, and the call fails with 400
"Document content is required" right after the source store was read. -/
theorem c4_migrate_short_to_long_rejected :
    migrate_memory mig_ctx { sessions := [mig_session] } "short_term" "long_term" "sess1" =
      (Except.error { status := 400, detail := "Document content is required" },
       [StoreOp.read_short]) :=
  rfl

/-- C5 counterexample: for the invalid pair mid_term → short_term the call
is rejected, but only after the mid_term store was read — not before any
I/O as the claim states. -/
theorem c5_invalid_target_after_io :
    migrate_memory mig_ctx { summaries := [mig_summary] } "mid_term" "short_term" "s1" =
      (Except.error { status := 400, detail := "Invalid target tier" },
       [StoreOp.read_mid]) ∧
    [StoreOp.read_mid] ≠ ([] : List StoreOp) :=
  ⟨rfl, by decide⟩

/-- C5 amended: an invalid source tier (anything but short_term and
mid_term — in particular long_term, which is terminal) is rejected before
any store is contacted; an invalid target tier is rejected as a
validation error only after the source store has been read and the record
located; and mid_term → mid_term passes the pair validation — it reaches
the target store and fails there with a missing-summary-text error. -/
theorem c5_migration_validation :
    (∀ (ctx : UserContext) (db : MigDb) (st tt id : String),
      st ≠ "short_term" → st ≠ "mid_term" →
      migrate_memory ctx db st tt id =
        (Except.error { status := 400, detail := "Migration from long-term not supported" },
         [])) ∧
    (∀ (ctx : UserContext) (db : MigDb) (tt id : String) (sums : List Summary)
        (ops : List StoreOp) (s : Summary),
      tt ≠ "mid_term" → tt ≠ "long_term" →
      retrieve_summaries ctx db.summaries 1000 = (Except.ok sums, ops) →
      sums.find? (fun x => x.summary_id = id) = some s →
      migrate_memory ctx db "mid_term" tt id =
        (Except.error { status := 400, detail := "Invalid target tier" }, ops)) ∧
    (∀ (ctx : UserContext) (db : MigDb) (tt id : String) (sess : List Session)
        (ops : List StoreOp) (s : Session),
      tt ≠ "mid_term" → tt ≠ "long_term" →
      retrieve_sessions ctx db.sessions 1000 = (Except.ok sess, ops) →
      sess.find? (fun x => x.session_id = id) = some s →
      migrate_memory ctx db "short_term" tt id =
        (Except.error { status := 400, detail := "Invalid target tier" }, ops)) ∧
    (∀ (ctx : UserContext) (db : MigDb) (id : String) (sums : List Summary)
        (ops : List StoreOp) (s : Summary),
      retrieve_summaries ctx db.summaries 1000 = (Except.ok sums, ops) →
      sums.find? (fun x => x.summary_id = id) = some s →
      (check_memory_access ctx MemoryTier.mid_term "write").granted = true →
      migrate_memory ctx db "mid_term" "mid_term" id =
        (Except.error { status := 400, detail := "No summary text provided" }, ops)) := by
  refine ⟨?_, ?_, ?_, ?_⟩
  · intro ctx db st tt id h1 h2
    unfold migrate_memory
    rw [if_neg h1, if_neg h2]
  · intro ctx db tt id sums ops s h1 h2 hretr hfind
    unfold migrate_memory
    rw [if_neg (by decide : ¬ ("mid_term" : String) = "short_term"), if_pos rfl, hretr]
    dsimp only
    rw [hfind]
    dsimp only
    unfold migrate_store_target
    rw [if_neg h1, if_neg h2]
  · intro ctx db tt id sess ops s h1 h2 hretr hfind
    unfold migrate_memory
    rw [if_pos rfl, hretr]
    dsimp only
    rw [hfind]
    dsimp only
    unfold migrate_store_target
    rw [if_neg h1, if_neg h2]
  · intro ctx db id sums ops s hretr hfind hgr
    unfold migrate_memory
    rw [if_neg (by decide : ¬ ("mid_term" : String) = "short_term"), if_pos rfl, hretr]
    dsimp only
    rw [hfind]
    dsimp only
    simp [migrate_store_target, store_summary, hgr]

/-- Witness for C5 amended: long_term as source is rejected with no I/O;
mid_term → short_term errors only after the read; mid_term → mid_term
reaches the target store's summary-text validation. -/
theorem c5_migration_validation_witness :
    (("long_term" : String) ≠ "short_term" ∧ ("long_term" : String) ≠ "mid_term" ∧
      migrate_memory mig_ctx { summaries := [mig_summary] } "long_term" "mid_term" "s1" =
        (Except.error { status := 400, detail := "Migration from long-term not supported" },
         [])) ∧
    migrate_memory mig_ctx { summaries := [mig_summary] } "mid_term" "mid_term" "s1" =
      (Except.error { status := 400, detail := "No summary text provided" },
       [StoreOp.read_mid]) :=
  ⟨⟨by decide, by decide,
    c5_migration_validation.1 mig_ctx { summaries := [mig_summary] } "long_term" "mid_term"
      "s1" (by decide) (by decide)⟩,
   c5_migration_validation.2.2.2 mig_ctx { summaries := [mig_summary] } "s1"
     [mig_summary] [StoreOp.read_mid] mig_summary rfl rfl rfl⟩

/-- C10: an authorized store_document call whose (valid) content collides
on content hash with any already-stored record — archived or not, visible
to the caller or not — creates nothing and returns duplicate with the
existing record's memory_id; the duplicate lookup carries no archived or
visibility condition. -/
theorem c10_duplicate_content (ctx : UserContext) (d : DocData) (table : List LongDoc)
    (hgr : (check_memory_access ctx MemoryTier.long_term "write").granted = true)
    (hlen : 10 ≤ pyLen (pyStrip (d.content.getD "")))
    (hdup : ∃ doc ∈ table,
      doc.content_hash = generate_content_hash (pyStrip (d.content.getD ""))) :
    (store_document ctx d table).table = table ∧
    (store_document ctx d table).ops = [StoreOp.read_long] ∧
    ∃ doc ∈ table,
      doc.content_hash = generate_content_hash (pyStrip (d.content.getD "")) ∧
      (store_document ctx d table).result = Except.ok
        { memory_id := some doc.memory_id
          status := "duplicate"
          message := "Document with identical content already exists" } := by
  have hne : pyStrip (d.content.getD "") ≠ "" := by
    intro h
    rw [h] at hlen
    simp [pyLen] at hlen
  have hlt : ¬ pyLen (pyStrip (d.content.getD "")) < 10 := by omega
  have hsome : (table.find? (fun x =>
      x.content_hash = generate_content_hash (pyStrip (d.content.getD "")))).isSome := by
    rw [List.find?_isSome]
    obtain ⟨doc, hmem, hh⟩ := hdup
    exact ⟨doc, hmem, by simpa using hh⟩
  obtain ⟨doc0, hfind⟩ := Option.isSome_iff_exists.mp hsome
  have hmem0 := List.mem_of_find?_eq_some hfind
  have hph := List.find?_some hfind
  have hh0 : doc0.content_hash = generate_content_hash (pyStrip (d.content.getD "")) := by
    simpa using hph
  refine ⟨?_, ?_, doc0, hmem0, hh0, ?_⟩ <;>
    simp [store_document, hgr, hne, hlt, hfind]

/-- Witness for C10: a level-4 caller storing content identical to an
archived record created by another user still gets the duplicate outcome
and no insert. -/
theorem c10_duplicate_content_witness :
    (check_memory_access { user_id := 4, hierarchy_level := 4 }
      MemoryTier.long_term "write").granted = true ∧
    (store_document { user_id := 4, hierarchy_level := 4 }
      { content := some "shared company knowledge" }
      [{ memory_id := "old1", content_hash := "shared company knowledge",
         created_by := 77, is_archived := true }]).table =
      [{ memory_id := "old1", content_hash := "shared company knowledge",
         created_by := 77, is_archived := true }] :=
  ⟨by decide,
   (c10_duplicate_content { user_id := 4, hierarchy_level := 4 }
     { content := some "shared company knowledge" }
     [{ memory_id := "old1", content_hash := "shared company knowledge",
        created_by := 77, is_archived := true }]
     (by decide) (by decide)
     ⟨{ memory_id := "old1", content_hash := "shared company knowledge",
        created_by := 77, is_archived := true }, List.mem_singleton.mpr rfl, rfl⟩).1⟩

/-- Insertion into the score-sorted list preserves membership. -/
theorem mem_insertByScore {a r : SearchResult} {l : List SearchResult} :
    a ∈ insertByScore r l ↔ a = r ∨ a ∈ l := by
  induction l with
  | nil => simp [insertByScore]
  | cons q qs ih =>
    simp only [insertByScore]
    split
    · simp only [List.mem_cons, ih]
      tauto
    · simp [List.mem_cons]

/-- The stable score sort is a permutation as far as membership goes. -/
theorem mem_sortByScore {a : SearchResult} {l : List SearchResult} :
    a ∈ sortByScore l ↔ a ∈ l := by
  suffices h : ∀ (l acc : List SearchResult) (a : SearchResult),
      a ∈ l.foldl (fun acc r => insertByScore r acc) acc ↔ a ∈ acc ∨ a ∈ l by
    simpa [sortByScore] using h l [] a
  intro l
  induction l with
  | nil => intro acc a; simp
  | cons x xs ih =>
    intro acc a
    simp only [List.foldl, ih, mem_insertByScore, List.mem_cons]
    tauto

/-- Every member of the ranked list is an annotated member of the input. -/
theorem mem_rank_cross_tier {a : SearchResult} {l : List SearchResult} :
    a ∈ rank_cross_tier_results l ↔
      ∃ r ∈ l, a = { r with unified_score := some (unified_score_of r) } := by
  simp only [rank_cross_tier_results, mem_sortByScore, List.mem_map]
  constructor
  · rintro ⟨r, hr, rfl⟩
    exact ⟨r, hr, rfl⟩
  · rintro ⟨r, hr, rfl⟩
    exact ⟨r, hr, rfl⟩

/-- C3 counterexample: a universal search where the short_term store
fails while mid_term and long_term succeed returns success with EMPTY
search_errors — the short-term helper swallows its own failure — instead
of the one error entry the claim requires. -/
theorem c3_short_error_uncaptured :
    (universal_search "q" 30 (Except.error "db down") (Except.ok [usearch_summary])
      (Except.ok []) (Except.ok [])).search_errors = [] ∧
    (universal_search "q" 30 (Except.error "db down") (Except.ok [usearch_summary])
      (Except.ok []) (Except.ok [])).total_results = 1 :=
  ⟨rfl, rfl⟩

/-- C3 amended: short_term and mid_term store failures are swallowed
inside their helpers (zero results, no error entry); only a long_term
failure is captured, as the single entry of search_errors, with results
drawn from the short and mid helpers only; the overall call returns a
structured response even when every tier fails (and the query string —
empty or not — is never validated: it is not consulted by any failure
path). -/
theorem c3_partial_failure :
    (∀ (e q : String) (lim : Nat),
      search_short_term_helper (Except.error e) q lim = []) ∧
    (∀ (e : String) (tagOut : Except String (List Summary)) (q : String) (lim : Nat),
      search_mid_term_helper (Except.error e) tagOut q lim = []) ∧
    (∀ (q : String) (lim : Nat) (so : Except String (List Session))
        (mc mt : Except String (List Summary)) (e : String),
      (universal_search q lim so mc mt (Except.error e)).search_errors =
        ["long_term: " ++ e]) ∧
    (∀ (q : String) (lim : Nat) (so : Except String (List Session))
        (mc mt : Except String (List Summary)) (lr : List SearchResult),
      (universal_search q lim so mc mt (Except.ok lr)).search_errors = []) ∧
    (∀ (q : String) (lim : Nat) (so : Except String (List Session))
        (mc mt : Except String (List Summary)) (e : String) (r : SearchResult),
      r ∈ (universal_search q lim so mc mt (Except.error e)).results →
      r.memory_tier = some "short_term" ∨ r.memory_tier = some "mid_term") ∧
    (∀ (q : String) (lim : Nat) (e1 e2 e3 e4 : String),
      (universal_search q lim (Except.error e1) (Except.error e2) (Except.error e3)
        (Except.error e4)).results = [] ∧
      (universal_search q lim (Except.error e1) (Except.error e2) (Except.error e3)
        (Except.error e4)).tiers_searched = ["short_term", "mid_term", "long_term"]) := by
  refine ⟨fun _ _ _ => rfl, fun _ _ _ _ => rfl, fun _ _ _ _ _ _ => rfl,
    fun _ _ _ _ _ _ => rfl, ?_,
    fun _ _ _ _ _ _ =>
      ⟨by simp [universal_search, search_short_term_helper, search_mid_term_helper,
          rank_cross_tier_results, sortByScore], rfl⟩⟩
  intro q lim so mc mt e r hr
  simp only [universal_search] at hr
  have hr2 := List.take_subset _ _ hr
  rw [mem_rank_cross_tier] at hr2
  obtain ⟨r0, hr0, rfl⟩ := hr2
  simp only [List.append_nil, List.mem_append, List.mem_map] at hr0
  rcases hr0 with ⟨x, _, rfl⟩ | ⟨x, _, rfl⟩
  · left; rfl
  · right; rfl

/-- Witness for C3 amended: a concrete search with a failing long_term
store whose one result comes from the mid tier. -/
theorem c3_partial_failure_witness :
    usearch_result ∈ (universal_search "q" 30 (Except.ok []) (Except.ok [usearch_summary])
      (Except.ok []) (Except.error "boom")).results ∧
    (usearch_result.memory_tier = some "short_term" ∨
     usearch_result.memory_tier = some "mid_term") :=
  have hmem : usearch_result ∈ (universal_search "q" 30 (Except.ok [])
      (Except.ok [usearch_summary]) (Except.ok []) (Except.error "boom")).results := by
    rw [show (universal_search "q" 30 (Except.ok []) (Except.ok [usearch_summary])
      (Except.ok []) (Except.error "boom")).results = [usearch_result] from rfl]
    exact List.mem_singleton.mpr rfl
  ⟨hmem,
   c3_partial_failure.2.2.2.2.1 "q" 30 (Except.ok []) (Except.ok [usearch_summary])
     (Except.ok []) "boom" usearch_result hmem⟩

end RbacMemory
